import Mathlib

/-!
Verification of the Titanic survival fingerprint engine
(`run_titanic_survival_matrix_engine` in `src/constants.ts`) and of the
Kaggle credential flag helpers in `src/services/kaggleService.ts`.

The engine works row by row on a dataframe.  We embed the per-row
computation: the age factor, the gender/class multiplier, the clipped
conceptual survival probability, the binary prediction and the signed
residual against an observed outcome, exactly as the source computes them.
-/

namespace SurvivalMatrix

/-- A fully populated passenger row, as the engine sees it after the
column-imputation step.  `survived` is the optional observed outcome. -/
structure PassengerRow where
  age : ℝ
  sex : String
  pclass : Int
  fare : ℝ
  survived : Option ℝ

/-- A raw inbound record before imputation: every field may be absent,
mirroring the dataframe columns the engine fills in when missing. -/
structure RawRow where
  age : Option ℝ
  sex : Option String
  pclass : Option Int
  fare : Option ℝ
  survived : Option ℝ

/-- Values used to fill missing columns.  The source draws them from
`np.random`; we keep them abstract parameters, which covers every draw. -/
structure ImputedDefaults where
  age : ℝ
  sex : String
  pclass : Int
  fare : ℝ
  survived : ℝ

/-- Column imputation (`constants.ts` lines 277-281): any column missing
from the frame is filled in, so every row leaving this step is complete. -/
def fillMissing (d : ImputedDefaults) (r : RawRow) : PassengerRow :=
  { age := r.age.getD d.age
    sex := r.sex.getD d.sex
    pclass := r.pclass.getD d.pclass
    fare := r.fare.getD d.fare
    survived := some (r.survived.getD d.survived) }

/-- `Age_Factor` (lines 297-298): the sigmoid-shaped curve
`1 / (1 + exp((Age - 30) / 10))` computed for every row, then rows with
`Age < 10` overwritten with the fixed child constant `0.8`. -/
noncomputable def ageFactor (age : ℝ) : ℝ :=
  if age < 10 then 0.8 else 1 / (1 + Real.exp ((age - 30) / 10))

/-- `Gender_Class_Factor` (lines 303-309): base factor `0.5`, then the six
(sex, class) combinations overwritten with their constants.  The six masks
are pairwise disjoint, so the sequential `df.loc` writes equal this chain. -/
noncomputable def genderClassFactor (sex : String) (pclass : Int) : ℝ :=
  if sex = "female" ∧ pclass = 1 then 1.2
  else if sex = "female" ∧ pclass = 2 then 1.0
  else if sex = "female" ∧ pclass = 3 then 0.8
  else if sex = "male" ∧ pclass = 1 then 0.6
  else if sex = "male" ∧ pclass = 2 then 0.4
  else if sex = "male" ∧ pclass = 3 then 0.2
  else 0.5

/-- `Series.clip(0, 1)`: clamp a value into the interval [0, 1]. -/
noncomputable def clip01 (x : ℝ) : ℝ := min (max x 0) 1

/-- `Conceptual_Survival_Prob` (lines 312-313): the product of the two
factors, clipped to [0, 1]. -/
noncomputable def survivalProb (r : PassengerRow) : ℝ :=
  clip01 (ageFactor r.age * genderClassFactor r.sex r.pclass)

/-- The per-row output of the engine: the two factors, the clipped
probability `Phi_N`, the binary `Prediction` (line 317) and, when an
observed outcome is present, the signed `Residual` (line 318). -/
structure FingerprintResult where
  A_N : ℝ
  M_N : ℝ
  Phi_N : ℝ
  prob : ℝ
  pred : Int
  outlierScore : Option ℝ

/-- Score one row: assemble every per-row quantity the engine derives. -/
noncomputable def scoreRecord (r : PassengerRow) : FingerprintResult :=
  { A_N := ageFactor r.age
    M_N := genderClassFactor r.sex r.pclass
    Phi_N := survivalProb r
    prob := survivalProb r
    pred := if survivalProb r > 0.5 then 1 else 0
    outlierScore := r.survived.map (fun o => o - survivalProb r) }

/-- Outlier selection (line 324): a row is kept as an outlier exactly when
its `Abs_Residual` strictly exceeds the threshold. -/
def isOutlier (threshold : ℝ) (fr : FingerprintResult) : Prop :=
  ∃ s, fr.outlierScore = some s ∧ |s| > threshold

/-- The `--outlier-threshold` argparse default (line 393). -/
noncomputable def defaultOutlierThreshold : ℝ := 0.2

end SurvivalMatrix

namespace KaggleService

/-- Browser local storage, modelled as a finite map from keys to strings. -/
def LocalStorage : Type := String → Option String

/-- `localStorage.getItem`. -/
def getItem (s : LocalStorage) (k : String) : Option String := s k

/-- `localStorage.setItem`. -/
def setItem (s : LocalStorage) (k v : String) : LocalStorage :=
  fun k2 => if k2 = k then some v else s k2

/-- `localStorage.removeItem`. -/
def removeItem (s : LocalStorage) (k : String) : LocalStorage :=
  fun k2 => if k2 = k then none else s k2

/-- The storage key used by the service (`kaggleService.ts` line 5). -/
def KAGGLE_CREDENTIALS_LINKED_KEY : String := "KaggleCredentialsLinked"

/-- `hasKaggleCredentialsConfigured` (lines 11-13): true exactly when the
stored value under the key is the string `true`. -/
def hasKaggleCredentialsConfigured (s : LocalStorage) : Bool :=
  getItem s KAGGLE_CREDENTIALS_LINKED_KEY == some "true"

/-- `simulateSetKaggleCredentials` (lines 18-21). -/
def simulateSetKaggleCredentials (s : LocalStorage) : LocalStorage :=
  setItem s KAGGLE_CREDENTIALS_LINKED_KEY "true"

/-- `simulateClearKaggleCredentials` (lines 26-29). -/
def simulateClearKaggleCredentials (s : LocalStorage) : LocalStorage :=
  removeItem s KAGGLE_CREDENTIALS_LINKED_KEY

end KaggleService

namespace SurvivalMatrix

lemma exp_two_gt_five : (5 : ℝ) < Real.exp 2 := by
  have h2 : Real.exp 2 = Real.exp 1 * Real.exp 1 := by
    rw [← Real.exp_add]; norm_num
  have he : (2.7182818283 : ℝ) < Real.exp 1 := Real.exp_one_gt_d9
  nlinarith

lemma genderClassFactor_pos (sex : String) (pclass : Int) :
    0 < genderClassFactor sex pclass := by
  unfold genderClassFactor
  split_ifs <;> norm_num

lemma ageFactor_pos (age : ℝ) : 0 < ageFactor age := by
  unfold ageFactor
  split_ifs with h
  · norm_num
  · positivity

lemma ageFactor_le_one (age : ℝ) : ageFactor age ≤ 1 := by
  unfold ageFactor
  split_ifs with h
  · norm_num
  · have hpos : (0 : ℝ) < 1 + Real.exp ((age - 30) / 10) := by positivity
    rw [div_le_one hpos]
    have := Real.exp_pos ((age - 30) / 10)
    linarith

lemma exp_neg_two_lt_fifth : Real.exp (-2) < 1 / 5 := by
  have hid : Real.exp (-2) * Real.exp 2 = 1 := by
    rw [← Real.exp_add]; norm_num
  have hpos : 0 < Real.exp (-2) := Real.exp_pos _
  nlinarith [exp_two_gt_five]

lemma clip01_nonneg (x : ℝ) : 0 ≤ clip01 x :=
  le_min (le_max_right _ _) zero_le_one

lemma clip01_le_one (x : ℝ) : clip01 x ≤ 1 :=
  min_le_right _ _

lemma clip01_eq_self (x : ℝ) (h0 : 0 ≤ x) (h1 : x ≤ 1) : clip01 x = x := by
  unfold clip01
  rw [max_eq_left h0, min_eq_left h1]

lemma clip01_eq_one_of_le (x : ℝ) (h : 1 ≤ x) : clip01 x = 1 := by
  unfold clip01
  exact min_eq_right (le_trans h (le_max_left x 0))

/-- Claim C2: the gender/class multiplier is total over the six
(sex, class) combinations with the exact constants female/1st = 1.2,
female/2nd = 1.0, female/3rd = 0.8, male/1st = 0.6, male/2nd = 0.4,
male/3rd = 0.2, and no input ever receives the value 0. -/
theorem multiplier_table_total :
    genderClassFactor "female" 1 = 1.2 ∧ genderClassFactor "female" 2 = 1.0 ∧
    genderClassFactor "female" 3 = 0.8 ∧ genderClassFactor "male" 1 = 0.6 ∧
    genderClassFactor "male" 2 = 0.4 ∧ genderClassFactor "male" 3 = 0.2 ∧
    ∀ sex pclass, 0 < genderClassFactor sex pclass := by
  refine ⟨?_, ?_, ?_, ?_, ?_, ?_, fun sex pclass => ?_⟩
  · simp [genderClassFactor]
  · simp [genderClassFactor]
  · simp [genderClassFactor]
  · simp [genderClassFactor]
  · simp [genderClassFactor]
  · simp [genderClassFactor]
  · exact genderClassFactor_pos sex pclass

/-- Claim C3: the age factor is the fixed child constant 0.8 for
age < 10, the sigmoid curve 1 / (1 + exp((age - 30) / 10)) for age ≥ 10,
the threshold age 10 itself uses the adult curve, and at age 5 the factor
is 0.8 even though the sigmoid curve takes a different value there. -/
theorem age_factor_branches :
    (∀ age : ℝ, age < 10 → ageFactor age = 0.8) ∧
    (∀ age : ℝ, 10 ≤ age → ageFactor age = 1 / (1 + Real.exp ((age - 30) / 10))) ∧
    ageFactor 5 = 0.8 ∧
    1 / (1 + Real.exp (((5 : ℝ) - 30) / 10)) ≠ 0.8 ∧
    ageFactor 10 = 1 / (1 + Real.exp (((10 : ℝ) - 30) / 10)) := by
  have hchild : ∀ age : ℝ, age < 10 → ageFactor age = 0.8 := by
    intro age h
    unfold ageFactor
    rw [if_pos h]
  have hadult : ∀ age : ℝ, 10 ≤ age →
      ageFactor age = 1 / (1 + Real.exp ((age - 30) / 10)) := by
    intro age h
    unfold ageFactor
    rw [if_neg (not_lt.mpr h)]
  refine ⟨hchild, hadult, hchild 5 (by norm_num), ?_, hadult 10 le_rfl⟩
  intro h
  have h5 : ((5 : ℝ) - 30) / 10 = -2.5 := by norm_num
  rw [h5] at h
  have hE : Real.exp (-2.5) < 1 / 5 := by
    have hm : Real.exp 2 < Real.exp 2.5 := Real.exp_lt_exp.mpr (by norm_num)
    have h25 : (5 : ℝ) < Real.exp 2.5 := lt_trans exp_two_gt_five hm
    have hid : Real.exp (-2.5) * Real.exp 2.5 = 1 := by
      rw [← Real.exp_add]; norm_num
    have hpos : 0 < Real.exp (-2.5) := Real.exp_pos _
    nlinarith
  have hEpos : 0 < Real.exp (-2.5) := Real.exp_pos _
  have hden : (0 : ℝ) < 1 + Real.exp (-2.5) := by linarith
  rw [div_eq_iff (ne_of_gt hden)] at h
  nlinarith

/-- Claim C5: the predicted survival probability of every scored record
lies in the closed interval [0, 1]. -/
theorem predicted_probability_in_unit_interval (r : PassengerRow) :
    0 ≤ (scoreRecord r).prob ∧ (scoreRecord r).prob ≤ 1 := by
  unfold scoreRecord survivalProb clip01
  exact ⟨le_min (le_max_right _ _) zero_le_one, min_le_right _ _⟩

/-- Claim C7: the binary prediction is 1 exactly when the predicted
probability is strictly greater than 0.5, and 0 otherwise. -/
theorem binary_prediction_rule (r : PassengerRow) :
    ((scoreRecord r).pred = 1 ↔ (scoreRecord r).prob > 0.5) ∧
    ((scoreRecord r).pred = 0 ↔ (scoreRecord r).prob ≤ 0.5) := by
  have hpred : (scoreRecord r).pred = if (scoreRecord r).prob > 0.5 then 1 else 0 := rfl
  rw [hpred]
  split_ifs with h
  · exact ⟨⟨fun _ => h, fun _ => rfl⟩,
      ⟨fun habs => absurd habs (by norm_num), fun hle => absurd h (not_lt.mpr hle)⟩⟩
  · exact ⟨⟨fun habs => absurd habs (by norm_num), fun hgt => absurd hgt h⟩,
      ⟨fun _ => not_lt.mp h, fun _ => rfl⟩⟩

/-- Claim C3 witness: a child age and an adult age evaluated concretely. -/
theorem age_factor_branches_witness :
    ageFactor 3 = 0.8 ∧ ageFactor 40 = 1 / (1 + Real.exp (((40 : ℝ) - 30) / 10)) :=
  ⟨age_factor_branches.1 3 (by norm_num), age_factor_branches.2.1 40 (by norm_num)⟩

/-- Claim C1 counterexample: for a female first-class passenger of age 10
the product of the factors exceeds 1, and the reported Phi_N is the clip
value 1, so Phi_N differs from the product A_N times M_N. -/
theorem phi_not_product_cex :
    (scoreRecord ⟨10, "female", 1, 0, none⟩).Phi_N = 1 ∧
    1 < (scoreRecord ⟨10, "female", 1, 0, none⟩).A_N *
      (scoreRecord ⟨10, "female", 1, 0, none⟩).M_N := by
  have hA : (scoreRecord (⟨10, "female", 1, 0, none⟩ : PassengerRow)).A_N
      = 1 / (1 + Real.exp (-2)) := by
    show ageFactor 10 = _
    unfold ageFactor
    rw [if_neg (by norm_num)]
    norm_num
  have hM : (scoreRecord (⟨10, "female", 1, 0, none⟩ : PassengerRow)).M_N = 1.2 := by
    show genderClassFactor "female" 1 = 1.2
    simp [genderClassFactor]
  have hEpos : (0 : ℝ) < Real.exp (-2) := Real.exp_pos _
  have hE : Real.exp (-2) < 1 / 5 := exp_neg_two_lt_fifth
  have hden : (0 : ℝ) < 1 + Real.exp (-2) := by linarith
  have hprod : 1 < (scoreRecord (⟨10, "female", 1, 0, none⟩ : PassengerRow)).A_N *
      (scoreRecord (⟨10, "female", 1, 0, none⟩ : PassengerRow)).M_N := by
    rw [hA, hM, div_mul_eq_mul_div, one_mul, one_lt_div hden]
    linarith
  refine ⟨?_, hprod⟩
  show clip01 (ageFactor 10 * genderClassFactor "female" 1) = 1
  exact clip01_eq_one_of_le _ (le_of_lt hprod)

/-- Claim C1 (amended): the reported Phi_N equals the product A_N times
M_N clipped to [0, 1]; it equals the product exactly whenever the product
is at most 1 (the product is never negative). -/
theorem phi_is_clipped_product (r : PassengerRow) :
    (scoreRecord r).Phi_N = clip01 ((scoreRecord r).A_N * (scoreRecord r).M_N) ∧
    ((scoreRecord r).A_N * (scoreRecord r).M_N ≤ 1 →
      (scoreRecord r).Phi_N = (scoreRecord r).A_N * (scoreRecord r).M_N) := by
  constructor
  · rfl
  · intro h
    show clip01 (ageFactor r.age * genderClassFactor r.sex r.pclass) = _
    exact clip01_eq_self _
      (mul_nonneg (le_of_lt (ageFactor_pos _)) (le_of_lt (genderClassFactor_pos _ _))) h

/-- Claim C1 (amended) witness: a male third-class passenger of age 28,
whose factor product is at most 1 so Phi_N equals it exactly. -/
theorem phi_is_clipped_product_witness :
    (scoreRecord ⟨28, "male", 3, 0, none⟩).Phi_N =
      (scoreRecord ⟨28, "male", 3, 0, none⟩).A_N *
        (scoreRecord ⟨28, "male", 3, 0, none⟩).M_N :=
  (phi_is_clipped_product ⟨28, "male", 3, 0, none⟩).2 (by
    show ageFactor 28 * genderClassFactor "male" 3 ≤ 1
    have hM : genderClassFactor "male" 3 = 0.2 := by simp [genderClassFactor]
    have h1 := ageFactor_le_one 28
    have h0 := ageFactor_pos 28
    rw [hM]
    nlinarith)

/-- Claim C4 counterexample: the record with Pclass 5 is scored without
any error: the engine is total, assigns the base multiplier 0.5, and
returns the usual sigmoid-based probability for age 28. -/
theorem invalid_class_scored_cex :
    (scoreRecord ⟨28, "male", 5, 0, none⟩).M_N = 0.5 ∧
    (scoreRecord ⟨28, "male", 5, 0, none⟩).prob =
      1 / (1 + Real.exp (((28 : ℝ) - 30) / 10)) * 0.5 := by
  have hM : genderClassFactor "male" 5 = 0.5 := by simp [genderClassFactor]
  have hA : ageFactor 28 = 1 / (1 + Real.exp (((28 : ℝ) - 30) / 10)) := by
    unfold ageFactor
    rw [if_neg (by norm_num)]
  refine ⟨hM, ?_⟩
  show clip01 (ageFactor 28 * genderClassFactor "male" 5) = _
  rw [hA, hM]
  have hEpos := Real.exp_pos (((28 : ℝ) - 30) / 10)
  have hden : (0 : ℝ) < 1 + Real.exp (((28 : ℝ) - 30) / 10) := by linarith
  apply clip01_eq_self
  · positivity
  · rw [div_mul_eq_mul_div, one_mul, div_le_one hden]
    linarith

/-- Claim C4 (amended): a record with an out-of-range class is not
rejected and not coerced: the engine assigns the base multiplier 0.5 and
scores it normally, with the probability in [0, 1]. -/
theorem invalid_class_gets_base_factor (r : PassengerRow)
    (h1 : r.pclass ≠ 1) (h2 : r.pclass ≠ 2) (h3 : r.pclass ≠ 3) :
    (scoreRecord r).M_N = 0.5 ∧
    0 ≤ (scoreRecord r).prob ∧ (scoreRecord r).prob ≤ 1 := by
  refine ⟨?_, clip01_nonneg _, clip01_le_one _⟩
  show genderClassFactor r.sex r.pclass = 0.5
  unfold genderClassFactor
  rw [if_neg (fun hc => h1 hc.2), if_neg (fun hc => h2 hc.2), if_neg (fun hc => h3 hc.2),
    if_neg (fun hc => h1 hc.2), if_neg (fun hc => h2 hc.2), if_neg (fun hc => h3 hc.2)]

/-- Claim C4 (amended) witness: class 5 evaluated concretely. -/
theorem invalid_class_gets_base_factor_witness :
    (scoreRecord ⟨28, "male", 5, 0, none⟩).M_N = 0.5 ∧
    0 ≤ (scoreRecord ⟨28, "male", 5, 0, none⟩).prob ∧
    (scoreRecord ⟨28, "male", 5, 0, none⟩).prob ≤ 1 :=
  invalid_class_gets_base_factor ⟨28, "male", 5, 0, none⟩
    (by decide) (by decide) (by decide)

/-- Claim C9: any record whose (sex, class) pair lies outside the six
tabulated combinations receives the base multiplier 0.5 and is scored
normally, with no error and a probability in [0, 1]. -/
theorem unknown_combo_base_factor (r : PassengerRow)
    (h : ¬ ((r.sex = "female" ∨ r.sex = "male") ∧
        (r.pclass = 1 ∨ r.pclass = 2 ∨ r.pclass = 3))) :
    (scoreRecord r).M_N = 0.5 ∧
    0 ≤ (scoreRecord r).prob ∧ (scoreRecord r).prob ≤ 1 := by
  refine ⟨?_, clip01_nonneg _, clip01_le_one _⟩
  show genderClassFactor r.sex r.pclass = 0.5
  unfold genderClassFactor
  rw [if_neg (fun hc => h ⟨Or.inl hc.1, Or.inl hc.2⟩),
    if_neg (fun hc => h ⟨Or.inl hc.1, Or.inr (Or.inl hc.2)⟩),
    if_neg (fun hc => h ⟨Or.inl hc.1, Or.inr (Or.inr hc.2)⟩),
    if_neg (fun hc => h ⟨Or.inr hc.1, Or.inl hc.2⟩),
    if_neg (fun hc => h ⟨Or.inr hc.1, Or.inr (Or.inl hc.2)⟩),
    if_neg (fun hc => h ⟨Or.inr hc.1, Or.inr (Or.inr hc.2)⟩)]

/-- Claim C9 witness: a record with an unrecognized sex string evaluated
concretely. -/
theorem unknown_combo_base_factor_witness :
    (scoreRecord ⟨30, "unknown", 2, 0, none⟩).M_N = 0.5 ∧
    0 ≤ (scoreRecord ⟨30, "unknown", 2, 0, none⟩).prob ∧
    (scoreRecord ⟨30, "unknown", 2, 0, none⟩).prob ≤ 1 :=
  unknown_combo_base_factor ⟨30, "unknown", 2, 0, none⟩ (by decide)

/-- Claim C6: with an observed outcome supplied, the outlier score is the
signed residual observed minus predicted, a record counts as an outlier
exactly when its absolute residual strictly exceeds the threshold, and
the default threshold is 0.2. -/
theorem outlier_score_is_signed_residual (r : PassengerRow) (o t : ℝ)
    (h : r.survived = some o) :
    (scoreRecord r).outlierScore = some (o - (scoreRecord r).prob) ∧
    (isOutlier t (scoreRecord r) ↔ |o - (scoreRecord r).prob| > t) ∧
    defaultOutlierThreshold = 0.2 := by
  have hscore : (scoreRecord r).outlierScore = some (o - (scoreRecord r).prob) := by
    show r.survived.map (fun x => x - survivalProb r) = some (o - survivalProb r)
    rw [h]
    rfl
  refine ⟨hscore, ?_, rfl⟩
  constructor
  · rintro ⟨s, hs, habs⟩
    rw [hscore] at hs
    rw [Option.some.inj hs]
    exact habs
  · intro habs
    exact ⟨o - (scoreRecord r).prob, hscore, habs⟩

/-- Claim C6 witness: a male third-class passenger of age 28 who
survived, evaluated at the default threshold. -/
theorem outlier_score_witness :
    (scoreRecord ⟨28, "male", 3, 7.25, some 1⟩).outlierScore =
      some (1 - (scoreRecord ⟨28, "male", 3, 7.25, some 1⟩).prob) ∧
    (isOutlier 0.2 (scoreRecord ⟨28, "male", 3, 7.25, some 1⟩) ↔
      |1 - (scoreRecord ⟨28, "male", 3, 7.25, some 1⟩).prob| > 0.2) ∧
    defaultOutlierThreshold = 0.2 :=
  outlier_score_is_signed_residual ⟨28, "male", 3, 7.25, some 1⟩ 1 0.2 rfl

/-- Claim C8: the record supplying only Pclass 3, Sex male and Age 28 is
scored without error: the missing fare is filled at the imputation step,
and the probability is a well-defined positive number that does not
depend on the imputed values. -/
theorem sparse_record_scored (d : ImputedDefaults) :
    (fillMissing d ⟨some 28, some "male", some 3, none, none⟩).fare = d.fare ∧
    (scoreRecord (fillMissing d ⟨some 28, some "male", some 3, none, none⟩)).prob =
      1 / (1 + Real.exp (((28 : ℝ) - 30) / 10)) * 0.2 ∧
    0 < (scoreRecord (fillMissing d ⟨some 28, some "male", some 3, none, none⟩)).prob := by
  have hA : ageFactor 28 = 1 / (1 + Real.exp (((28 : ℝ) - 30) / 10)) := by
    unfold ageFactor
    rw [if_neg (by norm_num)]
  have hM : genderClassFactor "male" 3 = 0.2 := by simp [genderClassFactor]
  have hEpos := Real.exp_pos (((28 : ℝ) - 30) / 10)
  have hden : (0 : ℝ) < 1 + Real.exp (((28 : ℝ) - 30) / 10) := by linarith
  have hprob :
      (scoreRecord (fillMissing d ⟨some 28, some "male", some 3, none, none⟩)).prob =
        1 / (1 + Real.exp (((28 : ℝ) - 30) / 10)) * 0.2 := by
    show clip01 (ageFactor 28 * genderClassFactor "male" 3) = _
    rw [hA, hM]
    apply clip01_eq_self
    · positivity
    · rw [div_mul_eq_mul_div, one_mul, div_le_one hden]
      linarith
  refine ⟨rfl, hprob, ?_⟩
  rw [hprob]
  positivity

end SurvivalMatrix

namespace KaggleService

/-- Claim C10: from any prior storage state, setting the simulated Kaggle
credentials makes the configured check return true, and clearing them
makes it return false. -/
theorem credentials_flag_round_trip (s : LocalStorage) :
    hasKaggleCredentialsConfigured (simulateSetKaggleCredentials s) = true ∧
    hasKaggleCredentialsConfigured (simulateClearKaggleCredentials s) = false := by
  constructor
  · simp [hasKaggleCredentialsConfigured, simulateSetKaggleCredentials, getItem, setItem]
  · simp [hasKaggleCredentialsConfigured, simulateClearKaggleCredentials, getItem, removeItem]

end KaggleService
